import Mathlib

/-!
Verification development for the ProjectAegis verification backend
(`src/backend/main.py`).  The core under specification is the multi-source
verdict aggregation and response-normalization pipeline of the
`POST /chatbot/verify` endpoint:

* `_aggregate_verdicts`            (main.py lines 1098-1131)
* the media-type classification of `_extract_media_from_url` (lines 405-424)
* `_is_youtube_url`                (lines 473-477)
* `_verify_youtube_video`          (lines 616-768)
* the dispatch and response-composition core of `chatbot_verify`
  (lines 823-1086)

Python dictionaries are embedded as Lean structures carrying exactly the
fields the pipeline reads; missing keys and `None` values are both `none`
(the code only ever distinguishes them through truthiness, which treats both
as falsy).  External collaborators (verifier services, the LLM, `json.loads`,
`yt-dlp`, the caption tool) are oracles passed in as function parameters, as
the spec treats them as black boxes.  All embedded functions are total Lean
`def`s, so "never raises" contracts hold by construction wherever the Python
code catches internally.
-/

namespace Aegis

/-! ### Python string primitives

Character-list models of the Python `str` operations used by the pipeline:
`.strip()`, `.strip('` \n')`, `.lower()`, `.startswith`, `.endswith`,
substring containment (`in`), and slicing by prefix length. -/

/-- Whitespace recognized by Python `str.strip()` with no arguments. -/
def py_space_chars : List Char := [' ', '\t', '\n', '\r', '\x0b', '\x0c']

/-- Drop the longest suffix of `l` whose characters satisfy `p`. -/
def drop_trailing (p : Char → Bool) (l : List Char) : List Char :=
  (l.reverse.dropWhile p).reverse

/-- Drop the longest prefix and suffix of `l` whose characters satisfy `p`,
mirroring Python `str.strip(chars)`. -/
def strip_list (p : Char → Bool) (l : List Char) : List Char :=
  drop_trailing p (l.dropWhile p)

/-- Python `s.strip()`: strip whitespace from both ends. -/
def py_strip (s : String) : String :=
  ⟨strip_list (fun c => py_space_chars.contains c) s.data⟩

/-- Python `s.strip(chars)`: strip any of the given characters from both ends. -/
def py_strip_set (cs : List Char) (s : String) : String :=
  ⟨strip_list (fun c => cs.contains c) s.data⟩

/-- Python `s.lower()` (ASCII-faithful; every string the pipeline compares is
ASCII). -/
def py_lower (s : String) : String :=
  ⟨s.data.map Char.toLower⟩

/-- Python `s.startswith(p)`. -/
def str_starts_with (s p : String) : Bool :=
  p.data.isPrefixOf s.data

/-- Python `s.endswith(p)`. -/
def str_ends_with (s p : String) : Bool :=
  p.data.isSuffixOf s.data

/-- Helper for substring containment: does `pat` occur as a prefix of some
suffix of the second argument? -/
def contains_aux (pat : List Char) : List Char → Bool
  | [] => pat.isPrefixOf []
  | c :: t => pat.isPrefixOf (c :: t) || contains_aux pat t

/-- Python `pat in s` for strings: substring containment. -/
def str_contains (s pat : String) : Bool :=
  contains_aux pat.data s.data

/-- Python truthiness of an optional string: `None` and `""` are falsy. -/
def py_falsy (o : Option String) : Bool :=
  match o with
  | none => true
  | some s => s = ""

/-! ### Data model

`PyResult` carries the fields of a verification-result dictionary that the
aggregation/composition core reads.  Diagnostic-only keys (`video_url`,
`captions_length`, claim statistics, `is_deepfake`, `file`, `claim_text`,
`claim_index`) are never read by the specified components and are not
modelled.  `verified` distinguishes an absent key, a `bool` value and a
non-`bool` value, because `_aggregate_verdicts` tests
`"verified" in r and isinstance(r.get("verified"), bool)`. -/

/-- The state of the `verified` key of a result dictionary. -/
inductive VerifiedField where
  | absent
  | bool_val (b : Bool)
  | non_bool
deriving DecidableEq

/-- The `details` sub-dictionary; the pipeline only ever reads its
`overall_verdict` key. -/
structure VDetails where
  overall_verdict : Option String := none
deriving DecidableEq

/-- A verification-result dictionary, restricted to the keys the pipeline
reads. -/
structure PyResult where
  verified : VerifiedField := .absent
  verdict : Option String := none
  message : Option String := none
  summary : Option String := none
  details : Option VDetails := none
  source : Option String := none
deriving DecidableEq

/-! ### Verdict aggregation (`_aggregate_verdicts`, main.py 1098-1131) -/

/-- Per-item verdict resolution: the body of the normalization loop of
`_aggregate_verdicts` (main.py 1108-1117).  Prefers an explicit boolean
`verified`, then a truthy `verdict` string, then `details.overall_verdict`,
then `"unknown"`; the outcome is lowercased. -/
def resolve_verdict (r : PyResult) : String :=
  let v1 : Option String :=
    match r.verified with
    | .bool_val b => some (if b then "true" else "false")
    | _ => r.verdict
  let v2 : Option String :=
    if py_falsy v1 then (r.details.getD {}).overall_verdict else v1
  py_lower (match v2 with
    | some s => if s = "" then "unknown" else s
    | none => "unknown")

/-- `_aggregate_verdicts` (main.py 1098-1131): reduce all per-item verdicts to
one overall verdict. -/
def aggregate_verdicts (results : List PyResult) : String :=
  if results.isEmpty then "no_content"
  else
    let normalized := results.map resolve_verdict
    if "false" ∈ normalized then "false"
    else if "uncertain" ∈ normalized then "uncertain"
    else if ∀ v ∈ normalized, v = "true" then "true"
    else "mixed"

/-! ### Media type classification (`_extract_media_from_url`, main.py 405-424)

Only the pure classification step is embedded: the subprocess probe and the
download are host I/O.  A probed format dictionary is modelled by its `vcodec`
and `acodec` entries; `none` models a missing key, so the Python comparison
`f.get("vcodec") != "none"` is `f.vcodec != some "none"` (a missing key
compares unequal to `"none"`, exactly as in the code). -/

/-- One entry of the `formats` list of the yt-dlp metadata JSON. -/
structure MediaFormat where
  vcodec : Option String := none
  acodec : Option String := none
deriving DecidableEq

/-- Extension allow-list for videos (main.py 409). -/
def video_exts : List String := ["mp4", "webm", "mkv", "avi", "mov", "flv", "m4v"]

/-- Extension allow-list for images (main.py 410). -/
def image_exts : List String := ["jpg", "jpeg", "png", "gif", "webp", "bmp"]

/-- The media-type classification of `_extract_media_from_url`
(main.py 408-424): extension allow-lists first, codec inspection as the
fallback, final type `"video"` exactly when `is_video` was set. -/
def determine_media_type (ext : String) (formats : List MediaFormat) : String :=
  let e := py_lower ext
  let is_video := video_exts.contains e
  let is_image := image_exts.contains e
  let flags :=
    if !is_video && !is_image then
      let has_video_codec := formats.any (fun f => f.vcodec != some "none")
      let has_audio_codec := formats.any (fun f => f.acodec != some "none")
      if has_video_codec then (true, is_image)
      else if !has_audio_codec && !has_video_codec then (is_video, true)
      else (is_video, is_image)
    else (is_video, is_image)
  if flags.1 then "video" else "image"

/-! ### YouTube caption-based verification (`_verify_youtube_video`,
main.py 616-768)

External steps are oracles: `get_transcript` is the outcome of
`get_youtube_transcript_ytdlp` (caption tool), `extract_claims` the outcome of
`_extract_claims_from_captions` (LLM + JSON parse, `[]` on any failure, as its
`except` branch returns `[]`), `claim_verify` the per-claim call to
`text_fact_checker.verify` (`none` models a raised exception), and `summary`
the `_generate_claims_summary` output. -/

/-- Oracle bundle for one YouTube URL's external calls. -/
structure YtOracles where
  get_transcript : Option String
  extract_claims : List String
  claim_verify : String → Option PyResult
  summary : String

/-- The result returned when caption extraction yields nothing
(main.py 646-656).  The `details` diagnostics carry no `overall_verdict`. -/
def no_captions_result : PyResult :=
  { verified := .bool_val false
    verdict := some "error"
    message := some "Could not extract captions from the YouTube video. The video may not have captions available."
    details := some {}
    source := some "youtube_url" }

/-- The result returned when no verifiable claims are extracted
(main.py 667-678). -/
def no_claims_result : PyResult :=
  { verified := .bool_val false
    verdict := some "uncertain"
    message := some "No verifiable claims were found in the video transcript. The video may contain only opinions, questions, or non-factual content."
    details := some {}
    source := some "youtube_url" }

/-- The per-claim result recorded when a claim's verification raises
(main.py 697-703); the interpolated exception text is abstracted. -/
def error_claim_result : PyResult :=
  { verified := .bool_val false
    verdict := some "error"
    message := some "Error during verification" }

/-- Step 4 of `_verify_youtube_video` (main.py 709-731): combine the
per-claim verdicts into the video's overall verdict and `verified` flag.
The `error` count is also computed by the code but only reported in
diagnostics, never branched on. -/
def combine_claim_verdicts (verdicts : List String) : String × Bool :=
  let true_count := verdicts.count "true"
  let false_count := verdicts.count "false"
  let uncertain_count := verdicts.count "uncertain"
  let mixed_count := verdicts.count "mixed"
  if 0 < false_count then ("false", false)
  else if 0 < true_count ∧ false_count = 0 then ("true", true)
  else if 0 < mixed_count then ("mixed", false)
  else if 0 < uncertain_count then ("uncertain", false)
  else ("error", false)

/-- `_verify_youtube_video` (main.py 616-768).  Every return point tags the
result with `source = "youtube_url"`. -/
def verify_youtube_video (O : YtOracles) : PyResult :=
  if py_falsy O.get_transcript then no_captions_result
  else if O.extract_claims.isEmpty then no_claims_result
  else
    let claim_results := O.extract_claims.map (fun c =>
      match O.claim_verify c with
      | some r => r
      | none => error_claim_result)
    let verdicts := claim_results.map (fun r => r.verdict.getD "uncertain")
    let cv := combine_claim_verdicts verdicts
    { verified := .bool_val cv.2
      verdict := some cv.1
      message := some O.summary
      details := some {}
      source := some "youtube_url" }

/-! ### Verifier dispatch (`chatbot_verify`, main.py 823-1006) -/

/-- `_is_youtube_url` (main.py 473-477). -/
def youtube_domains : List String :=
  ["youtube.com", "youtu.be", "www.youtube.com", "www.youtu.be", "m.youtube.com"]

/-- `_is_youtube_url` (main.py 473-477): any YouTube domain occurs in the
lowercased URL. -/
def is_youtube_url (url : String) : Bool :=
  let url_lower := py_lower url
  youtube_domains.any (fun d => str_contains url_lower d)

/-- The social-media domain list of the URL loop (main.py 938-941). -/
def social_domains : List String :=
  ["twitter.com", "x.com", "instagram.com", "tiktok.com", "facebook.com",
   "youtube.com", "youtu.be"]

/-- External verifier services and tools consumed by the dispatch, as black
boxes keyed by the payload they receive. -/
structure Verifiers where
  text_verify : String → PyResult
  image_verify_path : String → PyResult
  image_verify_url : String → PyResult
  video_verify_path : String → PyResult
  video_verify_url : String → PyResult
  detect_audio_deepfake : String → Bool
  audio_ai_message : String → Option String
  extract_media : String → Option (String × String)
  yt : String → YtOracles

/-- The audio file branch of the dispatch (main.py 853-902): classify with the
deepfake detector, obtain an LLM-phrased sentence (`audio_ai_message`
abstracts lines 857-892: the Gemini call plus its local JSON unwrapping;
`none` models an exception and `some ""` an empty extraction), and fall back
to a fixed template keyed on the boolean when that sentence is falsy. -/
def audio_file_result (V : Verifiers) (path : String) : PyResult :=
  let deepfake := V.detect_audio_deepfake path
  let fallback : String :=
    if deepfake then "This audio is likely AI-generated."
    else "This audio appears authentic and human."
  let msg :=
    match V.audio_ai_message path with
    | some s => if s = "" then fallback else s
    | none => fallback
  { verified := .bool_val (!deepfake)
    message := some msg
    source := some "uploaded_file" }

/-- Processing of one URL in the URL loop (main.py 918-1006): YouTube URLs go
to caption-based verification; social-media URLs attempt media extraction
(`extract_media` abstracts `_extract_media_from_url`'s probe/download,
returning the classified type and local path, `none` on any failure) and
route by the actual type; everything else falls back to direct-URL
verification selected by the declared verification type. -/
def process_url (V : Verifiers) (vtype : String) (u : String) : PyResult :=
  if is_youtube_url u then
    verify_youtube_video (V.yt u)
  else
    let is_social := social_domains.any (fun d => str_contains (py_lower u) d)
    match (if is_social then V.extract_media u else none) with
    | some (ty, path) =>
      let r := if ty = "image" then V.image_verify_path path
               else V.video_verify_path path
      { r with source := some "url" }
    | none =>
      let r := if vtype = "image" then V.image_verify_url u
               else V.video_verify_url u
      { r with source := some "url" }

/-- The content portion of a processed request (`processed_input["content"]`):
optional text plus file paths and URLs. -/
structure RequestContent where
  text : Option String := none
  files : List String := []
  urls : List String := []

/-- The result-collection core of `chatbot_verify` (main.py 823-1006): the
text branch, the sequential file loop, and the sequential URL loop, in
submission order. -/
def chatbot_collect_results (V : Verifiers) (vtype : String)
    (content : RequestContent) : List PyResult :=
  let text_results :=
    if vtype = "text" ∧ ¬ py_falsy content.text then
      let r := V.text_verify (content.text.getD "")
      [{ r with source := some "text_input" }]
    else []
  let file_results := content.files.map (fun p =>
    let r := if vtype = "image" then V.image_verify_path p
             else if vtype = "audio" then audio_file_result V p
             else V.video_verify_path p
    { r with source := some "uploaded_file" })
  let url_results := content.urls.map (process_url V vtype)
  text_results ++ file_results ++ url_results

/-! ### Per-item result normalization and response composition
(`chatbot_verify`, main.py 1019-1068) -/

/-- The fields of a `json.loads` result that the normalizer reads.  The
pipeline only ever extracts string-valued `message`, `verdict` and
`reasoning` entries; `none` models an absent key. -/
structure JObj where
  message : Option String := none
  verdict : Option String := none
  reasoning : Option String := none

/-- `re.sub(r'^<pat>', '', s, flags=re.I)` for a literal pattern: drop a
leading case-insensitive occurrence of `pat`. -/
def re_sub_lead_ci (pat s : String) : String :=
  if str_starts_with (py_lower s) (py_lower pat) then ⟨s.data.drop pat.data.length⟩
  else s

/-- `re.sub(r'```$', '', s)`: drop a trailing triple backtick; without
`re.MULTILINE` the `$` anchor also matches just before a final newline. -/
def re_sub_trail_ticks (s : String) : String :=
  if str_ends_with s "```" then ⟨s.data.take (s.data.length - 3)⟩
  else if str_ends_with s "```\n" then ⟨s.data.take (s.data.length - 4) ++ ['\n']⟩
  else s

/-- The fence-stripping chain applied before `json.loads`
(main.py 1041-1044): strip backticks/spaces/newlines, then a leading
case-insensitive ```` ```json ````, then a leading ```` ``` ````, then a
trailing ```` ``` ````, each followed by a whitespace strip. -/
def fence_strip (raw_final : String) : String :=
  let rt := py_strip_set ['\x60', ' ', '\n'] raw_final
  let rt := py_strip (re_sub_lead_ci "```json" rt)
  let rt := py_strip (re_sub_lead_ci "```" rt)
  let rt := py_strip (re_sub_trail_ticks rt)
  rt

/-- The redundant verdict-restating lead phrases stripped from the final
message (main.py 1056-1058). -/
def verdict_lead_phrases : List String :=
  ["this claim is true:", "this claim is false:", "this claim is uncertain:",
   "this claim has mixed evidence:", "the claim is true:", "the claim is false:",
   "the claim is uncertain:", "result:"]

/-- The phrase-stripping loop (main.py 1059-1062): the first phrase matching
the stripped, lowercased message is removed from the stripped message, and
the remainder is stripped again. -/
def strip_verdict_lead (m : String) : String :=
  match verdict_lead_phrases.find? (fun p => str_starts_with (py_lower (py_strip m)) p) with
  | some p => py_strip ⟨(py_strip m).data.drop p.data.length⟩
  | none => m

/-- The result normalization applied to the selected best message in the
non-audio branch (main.py 1036-1066): JSON/fence unwrapping with verbatim
fallback, verdict-phrase stripping, and diagnostic-leak replacement.
`jparse` is the `json.loads` collaborator restricted to the keys read
(`none` models a parse exception). -/
def normalize_message (jparse : String → Option JObj) (best_msg : String) : String :=
  let raw_final := py_strip best_msg
  let nonjson := !(raw_final == "") &&
    !(str_starts_with raw_final "\x7b" || str_starts_with raw_final "```")
  let extracted :=
    if nonjson then raw_final
    else
      match jparse (fence_strip raw_final) with
      | some obj =>
        let m := obj.message.getD ""
        if m ≠ "" then m
        else
          match obj.verdict with
          | some v =>
            "Verdict: " ++ v ++
              (match obj.reasoning with
               | some rsn => if rsn = "" then "" else ". " ++ rsn
               | none => "")
          | none => m
      | none => raw_final
  let fm := strip_verdict_lead extracted
  if str_starts_with (py_strip fm) "Audio deepfake detection completed" then
    "Audio deepfake detection was performed."
  else fm

/-- Python `r.get("message") or r.get("summary") or ""`. -/
def first_truthy (a b : Option String) : String :=
  if py_falsy a then (if py_falsy b then "" else b.getD "") else a.getD ""

/-- The candidate collection and longest-message selection
(main.py 1020-1025): strip each result's message-or-summary, keep the truthy
ones, and take the longest (Python `max` keeps the first of equal-length
candidates). -/
def best_message (results : List PyResult) : String :=
  let candidates := results.filterMap (fun r =>
    let m := py_strip (first_truthy r.message r.summary)
    if m = "" then none else some m)
  match candidates with
  | [] => ""
  | h :: t => t.foldl (fun acc x => if acc.data.length < x.data.length then x else acc) h

/-- The response-composition core (main.py 1019-1068): for a non-empty audio
batch, join each result's raw `message` (those present and truthy) with a
blank line; otherwise normalize the longest candidate message. -/
def compose_final_message (jparse : String → Option JObj) (vtype : String)
    (results : List PyResult) : String :=
  let best_msg := best_message results
  if vtype = "audio" ∧ results ≠ [] then
    String.intercalate "\n\n" (results.filterMap (fun r =>
      match r.message with
      | some s => if s = "" then none else some s
      | none => none))
  else if vtype ≠ "audio" then normalize_message jparse best_msg
  else best_msg

/-! ### Concrete collaborator instantiations

Trivial oracle bundles used to realize universally quantified theorems on
concrete inputs: every external call fails or returns an empty result. -/

/-- A YouTube oracle bundle whose caption extraction yields nothing. -/
def trivial_yt_oracles : YtOracles :=
  { get_transcript := none
    extract_claims := []
    claim_verify := fun _ => none
    summary := "" }

/-- Verifier collaborators that all return empty results or fail. -/
def trivial_verifiers : Verifiers :=
  { text_verify := fun _ => {}
    image_verify_path := fun _ => {}
    image_verify_url := fun _ => {}
    video_verify_path := fun _ => {}
    video_verify_url := fun _ => {}
    detect_audio_deepfake := fun _ => false
    audio_ai_message := fun _ => none
    extract_media := fun _ => none
    yt := fun _ => trivial_yt_oracles }

/-- Every return point of `_verify_youtube_video` tags its result with
`source = "youtube_url"`. -/
lemma verify_youtube_video_source (O : YtOracles) :
    (verify_youtube_video O).source = some "youtube_url" := by
  unfold verify_youtube_video
  split_ifs <;> rfl

/-! ### Theorems -/

/-- C1: for every list of verification results passed to `_aggregate_verdicts`,
an empty list yields `no_content`; a list in which any item resolves to
`false` yields `false`; otherwise any item resolving to `uncertain` yields
`uncertain`; otherwise all items resolving to `true` yields `true`; otherwise
the verdict is `mixed`. -/
theorem aggregate_verdicts_policy (results : List PyResult) :
    (results = [] → aggregate_verdicts results = "no_content")
  ∧ ((∃ r ∈ results, resolve_verdict r = "false") →
      aggregate_verdicts results = "false")
  ∧ ((∀ r ∈ results, resolve_verdict r ≠ "false") →
      (∃ r ∈ results, resolve_verdict r = "uncertain") →
      aggregate_verdicts results = "uncertain")
  ∧ (results ≠ [] → (∀ r ∈ results, resolve_verdict r = "true") →
      aggregate_verdicts results = "true")
  ∧ (results ≠ [] →
      (∀ r ∈ results, resolve_verdict r ≠ "false") →
      (∀ r ∈ results, resolve_verdict r ≠ "uncertain") →
      ¬ (∀ r ∈ results, resolve_verdict r = "true") →
      aggregate_verdicts results = "mixed") := by
  have hne : ∀ (h : results ≠ []), results.isEmpty = false := by
    intro h
    cases results with
    | nil => exact absurd rfl h
    | cons a t => rfl
  refine ⟨?_, ?_, ?_, ?_, ?_⟩
  · rintro rfl
    rfl
  · rintro ⟨r, hr, hv⟩
    have h0 : results.isEmpty = false := hne (by rintro rfl; cases hr)
    have hmem : "false" ∈ results.map resolve_verdict := List.mem_map.mpr ⟨r, hr, hv⟩
    simp [aggregate_verdicts, h0, hmem]
  · rintro hnf ⟨r, hr, hv⟩
    have h0 : results.isEmpty = false := hne (by rintro rfl; cases hr)
    have h1 : "false" ∉ results.map resolve_verdict := by
      simp only [List.mem_map, not_exists]
      rintro x ⟨hx, he⟩
      exact hnf x hx he
    have h2 : "uncertain" ∈ results.map resolve_verdict := List.mem_map.mpr ⟨r, hr, hv⟩
    simp [aggregate_verdicts, h0, h1, h2]
  · intro h hall
    have h0 : results.isEmpty = false := hne h
    have hallm : ∀ v ∈ results.map resolve_verdict, v = "true" := by
      simp only [List.mem_map]
      rintro v ⟨x, hx, rfl⟩
      exact hall x hx
    have h1 : "false" ∉ results.map resolve_verdict := by
      intro hm
      exact absurd (hallm _ hm) (by decide)
    have h2 : "uncertain" ∉ results.map resolve_verdict := by
      intro hm
      exact absurd (hallm _ hm) (by decide)
    simp [aggregate_verdicts, h0, h1, h2, hallm]
    exact hall
  · intro h hnf hnu hnt
    have h0 : results.isEmpty = false := hne h
    have h1 : "false" ∉ results.map resolve_verdict := by
      simp only [List.mem_map, not_exists]
      rintro x ⟨hx, he⟩
      exact hnf x hx he
    have h2 : "uncertain" ∉ results.map resolve_verdict := by
      simp only [List.mem_map, not_exists]
      rintro x ⟨hx, he⟩
      exact hnu x hx he
    have h3 : ¬ ∀ v ∈ results.map resolve_verdict, v = "true" := by
      intro hm
      exact hnt (fun r hr => hm _ (List.mem_map.mpr ⟨r, hr, rfl⟩))
    push_neg at hnt
    simp [aggregate_verdicts, h0, h1, h2, h3]
    exact hnt

/-- Witness for C1: the five aggregation cases realized on concrete inputs. -/
theorem aggregate_verdicts_policy_witness :
    aggregate_verdicts [] = "no_content"
  ∧ aggregate_verdicts [{ verdict := some "true" }, { verdict := some "false" }] = "false"
  ∧ aggregate_verdicts [{ verdict := some "true" }, { verdict := some "uncertain" }] = "uncertain"
  ∧ aggregate_verdicts [{ verdict := some "true" }, { verdict := some "TRUE" }] = "true"
  ∧ aggregate_verdicts [{ verdict := some "true" }, { verdict := some "mixed" }] = "mixed" :=
  ⟨(aggregate_verdicts_policy []).1 rfl,
   (aggregate_verdicts_policy _).2.1 ⟨{ verdict := some "false" }, by decide, by decide⟩,
   (aggregate_verdicts_policy _).2.2.1 (by decide) ⟨{ verdict := some "uncertain" }, by decide, by decide⟩,
   (aggregate_verdicts_policy _).2.2.2.1 (by decide) (by decide),
   (aggregate_verdicts_policy _).2.2.2.2 (by decide) (by decide) (by decide) (by decide)⟩

/-- C2: per-item verdict resolution follows the first-match-wins precedence
boolean `verified`, then truthy `verdict` string, then
`details.overall_verdict`, then `"unknown"`, with case-insensitive comparison
(the resolved verdict is the lowercased field value); and the mixed batch
`[{verified: true}, {verdict: "false"}, {details: {overall_verdict:
"uncertain"}}]` aggregates to `false`. -/
theorem resolve_verdict_precedence :
    (∀ (r : PyResult) (b : Bool), r.verified = .bool_val b →
        resolve_verdict r = (if b then "true" else "false"))
  ∧ (∀ (r : PyResult) (s : String), (r.verified = .absent ∨ r.verified = .non_bool) →
        r.verdict = some s → s ≠ "" → resolve_verdict r = py_lower s)
  ∧ (∀ (r : PyResult) (s : String), (r.verified = .absent ∨ r.verified = .non_bool) →
        (r.verdict = none ∨ r.verdict = some "") →
        (r.details.getD {}).overall_verdict = some s → s ≠ "" →
        resolve_verdict r = py_lower s)
  ∧ (∀ r : PyResult, (r.verified = .absent ∨ r.verified = .non_bool) →
        (r.verdict = none ∨ r.verdict = some "") →
        ((r.details.getD {}).overall_verdict = none ∨
         (r.details.getD {}).overall_verdict = some "") →
        resolve_verdict r = "unknown")
  ∧ aggregate_verdicts
      [{ verified := .bool_val true }, { verdict := some "false" },
       { details := some { overall_verdict := some "uncertain" } }] = "false" := by
  refine ⟨?_, ?_, ?_, ?_, by decide⟩
  · intro r b h
    cases b <;> simp [resolve_verdict, h, py_falsy] <;> decide
  · rintro r s (h1 | h1) h2 h3 <;> simp [resolve_verdict, h1, h2, py_falsy, h3]
  · rintro r s (h1 | h1) (h2 | h2) h3 h4 <;>
      simp [resolve_verdict, h1, h2, py_falsy, h3, h4]
  · rintro r (h1 | h1) (h2 | h2) (h3 | h3) <;>
      simp [resolve_verdict, h1, h2, py_falsy, h3] <;> decide

/-- Witness for C2: the four precedence levels and case-insensitivity on
concrete results. -/
theorem resolve_verdict_precedence_witness :
    resolve_verdict { verified := .bool_val true, verdict := some "false" } = "true"
  ∧ resolve_verdict { verified := .non_bool, verdict := some "FALSE" } = py_lower "FALSE"
  ∧ resolve_verdict { verdict := some "", details := some { overall_verdict := some "Uncertain" } } = py_lower "Uncertain"
  ∧ resolve_verdict { verified := .non_bool } = "unknown" :=
  ⟨resolve_verdict_precedence.1 _ true rfl,
   resolve_verdict_precedence.2.1 _ "FALSE" (Or.inr rfl) rfl (by decide),
   resolve_verdict_precedence.2.2.1 _ "Uncertain" (Or.inl rfl) (Or.inr rfl) rfl (by decide),
   resolve_verdict_precedence.2.2.2.1 _ (Or.inr rfl) (Or.inl rfl) (Or.inl rfl)⟩

/-- C8: `_aggregate_verdicts` is order-independent (invariant under
permutations of its input) and always yields one of the five verdict values.
It is deterministic because it is embedded as a pure function of its
argument. -/
theorem aggregate_verdicts_invariance :
    (∀ (l l' : List PyResult), l.Perm l' →
        aggregate_verdicts l = aggregate_verdicts l')
  ∧ (∀ l : List PyResult,
      aggregate_verdicts l ∈ ["no_content", "false", "uncertain", "true", "mixed"]) := by
  constructor
  · intro l l' h
    have hm := h.map resolve_verdict
    cases l with
    | nil =>
      have : l' = [] := h.symm.eq_nil
      subst this
      rfl
    | cons a t =>
      cases l' with
      | nil => exact absurd h.eq_nil (by simp)
      | cons b s =>
        simp only [aggregate_verdicts, List.isEmpty_cons, hm.mem_iff]
  · intro l
    simp only [aggregate_verdicts]
    split_ifs <;> decide

/-- Witness for C8: order-independence applied to a concrete permutation. -/
theorem aggregate_verdicts_invariance_witness :
    aggregate_verdicts [{ verdict := some "true" }, { verdict := some "uncertain" }]
      = aggregate_verdicts [{ verdict := some "uncertain" }, { verdict := some "true" }] :=
  aggregate_verdicts_invariance.1 _ _ (List.Perm.swap _ _ _)

/-- C10: in per-item resolution a non-conforming value is skipped, not used:
a non-boolean `verified` resolves exactly as an absent one, an empty-string
`verdict` resolves exactly as an absent one, and when both are
absent/non-conforming the resolution is `details.overall_verdict`, defaulting
to `"unknown"`. -/
theorem resolve_verdict_skip :
    (∀ r : PyResult, r.verified = .non_bool →
        resolve_verdict r = resolve_verdict { r with verified := .absent })
  ∧ (∀ r : PyResult, r.verdict = some "" →
        resolve_verdict r = resolve_verdict { r with verdict := none })
  ∧ (∀ r : PyResult, (r.verified = .absent ∨ r.verified = .non_bool) →
        (r.verdict = none ∨ r.verdict = some "") →
        resolve_verdict r =
          py_lower (match (r.details.getD {}).overall_verdict with
            | some s => if s = "" then "unknown" else s
            | none => "unknown")) := by
  refine ⟨?_, ?_, ?_⟩
  · intro r h
    simp [resolve_verdict, h]
  · intro r h
    cases hv : r.verified <;> simp [resolve_verdict, hv, h, py_falsy]
  · rintro r (h1 | h1) (h2 | h2) <;> simp [resolve_verdict, h1, h2, py_falsy]

/-- Witness for C10: the skip rules realized on concrete results. -/
theorem resolve_verdict_skip_witness :
    resolve_verdict { verified := .non_bool, verdict := some "true" }
      = resolve_verdict { verified := .absent, verdict := some "true" }
  ∧ resolve_verdict { verdict := some "", details := some { overall_verdict := some "mixed" } }
      = resolve_verdict { verdict := none, details := some { overall_verdict := some "mixed" } }
  ∧ resolve_verdict { verified := .non_bool, verdict := some "" } = "unknown" :=
  ⟨resolve_verdict_skip.1 _ rfl,
   resolve_verdict_skip.2.1 _ rfl,
   resolve_verdict_skip.2.2 _ (Or.inr rfl) (Or.inr rfl)⟩

/-- C9: the YouTube path's internal aggregation ranks `true` above
`uncertain` and `mixed`: any per-claim verdict list with no `false` and at
least one `true` combines to verdict `true` with `verified = true`, whereas
the top-level aggregator ranks `uncertain` above `true` on the corresponding
batch. -/
theorem youtube_true_precedence :
    (∀ verdicts : List String, "false" ∉ verdicts → "true" ∈ verdicts →
        combine_claim_verdicts verdicts = ("true", true))
  ∧ combine_claim_verdicts ["true", "uncertain", "mixed"] = ("true", true)
  ∧ aggregate_verdicts [{ verdict := some "true" }, { verdict := some "uncertain" }]
      = "uncertain" := by
  refine ⟨?_, by decide, by decide⟩
  intro verdicts hnf ht
  have h0 : verdicts.count "false" = 0 := List.count_eq_zero.mpr hnf
  have h1 : 0 < verdicts.count "true" := List.count_pos_iff.mpr ht
  simp [combine_claim_verdicts, h0, h1]

/-- Witness for C9: `true` beats `uncertain` and `mixed` on a concrete
verdict list. -/
theorem youtube_true_precedence_witness :
    combine_claim_verdicts ["uncertain", "true", "mixed"] = ("true", true) :=
  youtube_true_precedence.1 _ (by decide) (by decide)

/-- C3 counterexample: with an inconclusive extension, a metadata result
whose only format has an audio codec but no video codec is classified as
`image`, not `video` as the claim's default-to-video clause states. -/
theorem determine_media_type_counterexample :
    determine_media_type "bin" [{ vcodec := some "none", acodec := some "mp4a.40.2" }] = "image"
  ∧ determine_media_type "bin" [{ vcodec := some "none", acodec := some "mp4a.40.2" }] ≠ "video" := by
  decide

/-- C3 amended: when the extension is in neither allow-list, the asset is
classified as `video` exactly when some format's video codec entry differs
from `"none"`; in every other case — including an audio codec present with
no video codec — it is classified as `image`. -/
theorem determine_media_type_codec_rule (ext : String) (formats : List MediaFormat)
    (h1 : py_lower ext ∉ video_exts)
    (h2 : py_lower ext ∉ image_exts) :
    (formats.any (fun f => f.vcodec != some "none") = true →
        determine_media_type ext formats = "video")
  ∧ ((∀ f ∈ formats, f.vcodec = some "none" ∧ f.acodec = some "none") →
        determine_media_type ext formats = "image")
  ∧ (formats.any (fun f => f.vcodec != some "none") = false →
        determine_media_type ext formats = "image") := by
  refine ⟨?_, ?_, ?_⟩
  · intro h
    simp [determine_media_type, h1, h2, h]
  · intro h
    have hv : formats.any (fun f => f.vcodec != some "none") = false := by
      rw [List.any_eq_false]
      intro f hf
      simp [(h f hf).1]
    have ha : formats.any (fun f => f.acodec != some "none") = false := by
      rw [List.any_eq_false]
      intro f hf
      simp [(h f hf).2]
    simp [determine_media_type, h1, h2, hv, ha]
  · intro h
    cases ha : formats.any (fun f => f.acodec != some "none") <;>
      simp [determine_media_type, h1, h2, h, ha]

/-- Witness for C3's amended rule: a video codec forces `video`, no codecs at
all force `image`. -/
theorem determine_media_type_codec_rule_witness :
    determine_media_type "bin" [{ vcodec := some "avc1", acodec := some "none" }] = "video"
  ∧ determine_media_type "bin" [{ vcodec := some "none", acodec := some "none" }] = "image" :=
  ⟨(determine_media_type_codec_rule "bin" _ (by decide) (by decide)).1 (by decide),
   (determine_media_type_codec_rule "bin" _ (by decide) (by decide)).2.2 (by decide)⟩

/-- C4 counterexample: a batch containing one YouTube URL produces a result
whose `source` is `"youtube_url"`, which is none of the three claimed values
`text_input`, `uploaded_file`, `url`. -/
theorem chatbot_source_counterexample :
    ((chatbot_collect_results trivial_verifiers "video"
        { urls := ["https://www.youtube.com/watch?v=jNQXAC9IVRw"] }).map PyResult.source)
      = [some "youtube_url"]
  ∧ ("youtube_url" : String) ≠ "text_input"
  ∧ ("youtube_url" : String) ≠ "uploaded_file"
  ∧ ("youtube_url" : String) ≠ "url" := by
  decide

/-- C4 amended: every result appended by the dispatch has `source` set to one
of `text_input`, `uploaded_file`, `url`, or — for the YouTube caption-based
path only — `youtube_url`; that path always tags `youtube_url`. -/
theorem result_source_values (V : Verifiers) (vtype : String)
    (content : RequestContent) :
    (∀ r ∈ chatbot_collect_results V vtype content,
        r.source = some "text_input" ∨ r.source = some "uploaded_file" ∨
        r.source = some "url" ∨ r.source = some "youtube_url")
  ∧ (∀ O : YtOracles, (verify_youtube_video O).source = some "youtube_url") := by
  constructor
  · intro r hr
    simp only [chatbot_collect_results, List.mem_append] at hr
    rcases hr with (hr | hr) | hr
    · split at hr
      · rw [List.mem_singleton] at hr
        subst hr
        tauto
      · cases hr
    · rcases List.mem_map.mp hr with ⟨p, _, rfl⟩
      tauto
    · rcases List.mem_map.mp hr with ⟨u, _, rfl⟩
      cases hy : is_youtube_url u with
      | true =>
        simp only [process_url, hy, if_true]
        have := verify_youtube_video_source (V.yt u)
        tauto
      | false =>
        simp only [process_url, hy, Bool.false_eq_true, if_false]
        split
        · tauto
        · tauto
  · exact verify_youtube_video_source

/-- Witness for C4's amended rule: the YouTube-path result of a concrete
batch carries one of the four source tags. -/
theorem result_source_values_witness :
    (verify_youtube_video trivial_yt_oracles).source = some "text_input" ∨
    (verify_youtube_video trivial_yt_oracles).source = some "uploaded_file" ∨
    (verify_youtube_video trivial_yt_oracles).source = some "url" ∨
    (verify_youtube_video trivial_yt_oracles).source = some "youtube_url" :=
  (result_source_values trivial_verifiers "video"
    { urls := ["https://youtu.be/x"] }).1 _ (by decide)

/-- C6: for a YouTube URL whose caption extraction yields no captions, the
dispatch records a result with verdict `error` and a message mentioning
captions (no exception can propagate: the embedding is a total function of
its oracles), and the remaining batch item is still processed. -/
theorem youtube_no_captions_isolated (V : Verifiers) (vtype u w : String)
    (hu : is_youtube_url u = true)
    (hcap : py_falsy (V.yt u).get_transcript = true) :
    chatbot_collect_results V vtype { text := none, files := [], urls := [u, w] }
      = [verify_youtube_video (V.yt u), process_url V vtype w]
  ∧ (verify_youtube_video (V.yt u)).verdict = some "error"
  ∧ str_contains ((verify_youtube_video (V.yt u)).message.getD "") "captions" = true := by
  have hyt : verify_youtube_video (V.yt u) = no_captions_result := by
    unfold verify_youtube_video
    rw [if_pos hcap]
  refine ⟨?_, ?_, ?_⟩
  · simp [chatbot_collect_results, process_url, hu, py_falsy]
  · rw [hyt]
    rfl
  · rw [hyt]
    decide

/-- Witness for C6: a concrete two-URL batch with failing caption
extraction. -/
theorem youtube_no_captions_isolated_witness :
    chatbot_collect_results trivial_verifiers "video"
        { text := none, files := [], urls := ["https://youtu.be/abc", "https://example.com/v.mp4"] }
      = [verify_youtube_video (trivial_verifiers.yt "https://youtu.be/abc"),
         process_url trivial_verifiers "video" "https://example.com/v.mp4"]
  ∧ (verify_youtube_video (trivial_verifiers.yt "https://youtu.be/abc")).verdict = some "error"
  ∧ str_contains ((verify_youtube_video (trivial_verifiers.yt "https://youtu.be/abc")).message.getD "")
      "captions" = true :=
  youtube_no_captions_isolated trivial_verifiers "video" _ _ (by decide) (by decide)

/-! ### String lemmas for the normalizer -/

/-- Dropping a while-prefix commutes with appending one failing element. -/
lemma dropWhile_append_one {p : Char → Bool} {c : Char} (hc : p c = false)
    (xs : List Char) :
    (xs ++ [c]).dropWhile p = xs.dropWhile p ++ [c] := by
  induction xs with
  | nil => simp [List.dropWhile_cons, hc]
  | cons x t ih => by_cases hx : p x <;> simp [List.dropWhile_cons, hx, ih]

/-- A leading element failing the predicate survives trailing stripping. -/
lemma drop_trailing_cons {p : Char → Bool} {c : Char} (hc : p c = false)
    (t : List Char) :
    drop_trailing p (c :: t) = c :: drop_trailing p t := by
  unfold drop_trailing
  rw [List.reverse_cons, dropWhile_append_one hc]
  simp

/-- Stripping a list with a leading failing element keeps that element. -/
lemma strip_list_cons {p : Char → Bool} {c : Char} (hc : p c = false)
    (t : List Char) :
    strip_list p (c :: t) = c :: drop_trailing p t := by
  unfold strip_list
  rw [List.dropWhile_cons_of_neg (by simp [hc]), drop_trailing_cons hc]

/-- `dropWhile` is idempotent. -/
lemma dropWhile_idem (p : Char → Bool) (l : List Char) :
    (l.dropWhile p).dropWhile p = l.dropWhile p := by
  induction l with
  | nil => rfl
  | cons x t ih => by_cases hx : p x <;> simp [List.dropWhile_cons, hx, ih]

/-- Trailing stripping is idempotent. -/
lemma drop_trailing_idem (p : Char → Bool) (l : List Char) :
    drop_trailing p (drop_trailing p l) = drop_trailing p l := by
  unfold drop_trailing
  rw [List.reverse_reverse, dropWhile_idem]

/-- The head of a non-empty `dropWhile` result fails the predicate. -/
lemma dropWhile_head_false {p : Char → Bool} {l : List Char} {c : Char}
    {t : List Char} (h : l.dropWhile p = c :: t) : p c = false := by
  induction l with
  | nil => cases h
  | cons x xs ih =>
    by_cases hx : p x
    · rw [List.dropWhile_cons_of_pos hx] at h
      exact ih h
    · rw [List.dropWhile_cons_of_neg hx] at h
      cases h
      exact Bool.eq_false_iff.mpr hx

/-- Two-sided stripping is idempotent. -/
lemma strip_list_idem (p : Char → Bool) (l : List Char) :
    strip_list p (strip_list p l) = strip_list p l := by
  unfold strip_list
  cases hm : l.dropWhile p with
  | nil => simp [drop_trailing, List.dropWhile]
  | cons c t =>
    have hc : p c = false := dropWhile_head_false hm
    rw [drop_trailing_cons hc, List.dropWhile_cons_of_neg (by simp [hc]),
      drop_trailing_cons hc, drop_trailing_idem]

/-- Python `.strip()` is idempotent. -/
lemma py_strip_idem (s : String) : py_strip (py_strip s) = py_strip s := by
  unfold py_strip
  exact congrArg String.mk (strip_list_idem _ s.data)

/-- `startswith` yields the rest of the string as a data-level suffix. -/
lemma starts_with_data {s p : String} (h : str_starts_with s p = true) :
    ∃ t, s.data = p.data ++ t := by
  unfold str_starts_with at h
  rw [List.isPrefixOf_iff_prefix] at h
  obtain ⟨t, ht⟩ := h
  exact ⟨t, ht.symm⟩

/-- A string cannot start with a pattern whose head character differs from
its own head character. -/
lemma starts_false_of_head_ne {s p : String} {c : Char} {t : List Char}
    (hs : s.data = c :: t) {d : Char} {ps : List Char} (hp : p.data = d :: ps)
    (hne : (d == c) = false) :
    str_starts_with s p = false := by
  unfold str_starts_with
  rw [hs, hp]
  simp [List.isPrefixOf, hne]

/-- Core of C5: for any input whose character data starts with a
non-whitespace, lowercase-invariant character other than `t`, `r`, `A`, a
JSON-parse failure makes the normalizer return the stripped input verbatim
(the later phrase-stripping and diagnostic-replacement passes cannot fire on
such a head character). -/
lemma normalize_fallback_head (jparse : String → Option JObj) (s : String)
    (c : Char) (t : List Char)
    (hd : s.data = c :: t)
    (hsp : py_space_chars.contains c = false)
    (hlow : c.toLower = c)
    (hth : ('t' == c) = false) (hrh : ('r' == c) = false) (hah : ('A' == c) = false)
    (hjs : (str_starts_with (py_strip s) "\x7b" || str_starts_with (py_strip s) "```") = true)
    (hfail : jparse (fence_strip (py_strip s)) = none) :
    normalize_message jparse s = py_strip s := by
  have hraw : (py_strip s).data
      = c :: drop_trailing (fun ch => py_space_chars.contains ch) t := by
    have h1 : strip_list (fun ch => py_space_chars.contains ch) s.data
        = c :: drop_trailing (fun ch => py_space_chars.contains ch) t := by
      rw [hd]
      exact strip_list_cons hsp t
    exact h1
  have hne : (py_strip s == "") = false := by
    rw [beq_eq_false_iff_ne]
    intro he
    have hcontra := congrArg String.data he
    rw [hraw] at hcontra
    cases hcontra
  have hpsr : py_strip (py_strip s) = py_strip s := py_strip_idem s
  have hlowdata : (py_lower (py_strip (py_strip s))).data
      = c :: (drop_trailing (fun ch => py_space_chars.contains ch) t).map Char.toLower := by
    rw [hpsr]
    show (py_lower (py_strip s)).data = _
    unfold py_lower
    rw [hraw]
    simp [hlow]
  have f1 : str_starts_with (py_lower (py_strip (py_strip s))) "this claim is true:" = false :=
    starts_false_of_head_ne hlowdata rfl hth
  have f2 : str_starts_with (py_lower (py_strip (py_strip s))) "this claim is false:" = false :=
    starts_false_of_head_ne hlowdata rfl hth
  have f3 : str_starts_with (py_lower (py_strip (py_strip s))) "this claim is uncertain:" = false :=
    starts_false_of_head_ne hlowdata rfl hth
  have f4 : str_starts_with (py_lower (py_strip (py_strip s))) "this claim has mixed evidence:" = false :=
    starts_false_of_head_ne hlowdata rfl hth
  have f5 : str_starts_with (py_lower (py_strip (py_strip s))) "the claim is true:" = false :=
    starts_false_of_head_ne hlowdata rfl hth
  have f6 : str_starts_with (py_lower (py_strip (py_strip s))) "the claim is false:" = false :=
    starts_false_of_head_ne hlowdata rfl hth
  have f7 : str_starts_with (py_lower (py_strip (py_strip s))) "the claim is uncertain:" = false :=
    starts_false_of_head_ne hlowdata rfl hth
  have f8 : str_starts_with (py_lower (py_strip (py_strip s))) "result:" = false :=
    starts_false_of_head_ne hlowdata rfl hrh
  have hlead : strip_verdict_lead (py_strip s) = py_strip s := by
    unfold strip_verdict_lead
    have hfind : verdict_lead_phrases.find?
        (fun p => str_starts_with (py_lower (py_strip (py_strip s))) p) = none := by
      simp [verdict_lead_phrases, List.find?, f1, f2, f3, f4, f5, f6, f7, f8]
    rw [hfind]
  have hdiag : str_starts_with (py_strip (py_strip s)) "Audio deepfake detection completed" = false := by
    rw [hpsr]
    exact starts_false_of_head_ne hraw rfl hah
  simp only [normalize_message, hne, hjs, Bool.not_true, Bool.not_false,
    Bool.true_and, Bool.and_false, Bool.false_and, hfail, if_false, hlead, hdiag]
  simp [hlead, hdiag]

/-- C5: the normalization step is a total function (never raises by
construction), and for every input string starting with `{` or a
triple-backtick fence whose fence-stripped form fails to parse as JSON, the
output is the original stripped text verbatim. -/
theorem normalize_message_parse_fallback (jparse : String → Option JObj) (s : String)
    (hstart : str_starts_with s "\x7b" = true ∨ str_starts_with s "```" = true)
    (hfail : jparse (fence_strip (py_strip s)) = none) :
    normalize_message jparse s = py_strip s := by
  rcases hstart with h | h
  · obtain ⟨t, ht⟩ := starts_with_data h
    have hd : s.data = '\x7b' :: t := by simpa using ht
    refine normalize_fallback_head jparse s '\x7b' t hd (by decide) (by decide)
      (by decide) (by decide) (by decide) ?_ hfail
    have hraw : (py_strip s).data
        = '\x7b' :: drop_trailing (fun ch => py_space_chars.contains ch) t := by
      have h1 : strip_list (fun ch => py_space_chars.contains ch) s.data
          = '\x7b' :: drop_trailing (fun ch => py_space_chars.contains ch) t := by
        rw [hd]
        exact strip_list_cons (by decide) t
      exact h1
    have : str_starts_with (py_strip s) "\x7b" = true := by
      unfold str_starts_with
      rw [hraw]
      simp [List.isPrefixOf]
    simp [this]
  · obtain ⟨t, ht⟩ := starts_with_data h
    have hd : s.data = '\x60' :: ('\x60' :: '\x60' :: t) := by simpa using ht
    refine normalize_fallback_head jparse s '\x60' _ hd (by decide) (by decide)
      (by decide) (by decide) (by decide) ?_ hfail
    have hraw : (py_strip s).data
        = '\x60' :: '\x60' :: '\x60'
            :: drop_trailing (fun ch => py_space_chars.contains ch) t := by
      have h1 : strip_list (fun ch => py_space_chars.contains ch) s.data
          = '\x60' :: '\x60' :: '\x60'
              :: drop_trailing (fun ch => py_space_chars.contains ch) t := by
        rw [hd]
        rw [strip_list_cons (by decide), drop_trailing_cons (by decide),
          drop_trailing_cons (by decide)]
      exact h1
    have : str_starts_with (py_strip s) "```" = true := by
      unfold str_starts_with
      rw [hraw]
      simp [List.isPrefixOf]
    simp [this]

/-- Witness for C5: a brace-opened non-JSON string passes through the
normalizer stripped but otherwise verbatim. -/
theorem normalize_message_parse_fallback_witness :
    normalize_message (fun _ => none) "\x7bnot json  " = py_strip "\x7bnot json  "
  ∧ py_strip "\x7bnot json  " = "\x7bnot json" := by
  constructor
  · exact normalize_message_parse_fallback (fun _ => none) "\x7bnot json  "
      (Or.inl (by decide)) rfl
  · decide

/-- One-pass truthy-message selection equals selecting present messages and
filtering out empties. -/
lemma filterMap_message_eq (results : List PyResult) :
    results.filterMap (fun r =>
      match r.message with
      | some s => if s = "" then none else some s
      | none => none)
    = (results.filterMap PyResult.message).filter (fun m => m != "") := by
  induction results with
  | nil => rfl
  | cons a t ih =>
    cases hm : a.message with
    | none => simp [List.filterMap_cons, hm, ih]
    | some s =>
      by_cases hs : s = "" <;>
        simp [List.filterMap_cons, hm, hs, ih, List.filter_cons]

/-- C7: for a non-empty audio batch the final response message is exactly the
present, non-empty per-item messages joined verbatim with a blank-line
separator in result order — no JSON unwrapping, phrase stripping or
diagnostic replacement is applied to them. -/
theorem compose_audio_concat (jparse : String → Option JObj) (results : List PyResult)
    (h : results ≠ []) :
    compose_final_message jparse "audio" results
      = String.intercalate "\n\n"
          ((results.filterMap PyResult.message).filter (fun m => m != "")) := by
  simp only [compose_final_message]
  rw [if_pos ⟨by trivial, h⟩, filterMap_message_eq]

/-- Witness for C7: three audio results, one without a message, concatenate
to the two raw messages separated by a blank line. -/
theorem compose_audio_concat_witness :
    compose_final_message (fun _ => none) "audio"
        [{ message := some "hello" }, { message := none }, { message := some "world" }]
      = "hello\n\nworld" :=
  (compose_audio_concat (fun _ => none)
    [{ message := some "hello" }, { message := none }, { message := some "world" }]
    (by decide)).trans (by decide)

end Aegis
